import Mathlib

set_option maxRecDepth 100000

/-!
Verification of the answer-layering engine of `learning/answer_Layers.py`.

The Python module builds "add-on" guidance lines for a patient-education
answer from a calculator context: condition flags (`condition_modifiers`),
engagement drivers (`engagement_drivers`) and risk numbers.  This file is a
shallow embedding of that module: Python runtime values are modelled by the
inductive `PyVal`, Python dictionaries by insertion-ordered association
lists with string keys (the keys used by the module are all strings), and
each Python helper is translated definition by definition.  Theorems below
settle the specification claims against these definitions.
-/

namespace AnswerLayers

/-- Model of the Python runtime values that can reach this module: `None`,
booleans, ints, floats (modelled exactly as rationals; the module only ever
compares floats with zero or truncates them to int, so exact rationals are
faithful on every executed path), strings, lists and string-keyed dicts. -/
inductive PyVal where
  | none
  | bool (b : Bool)
  | int (n : Int)
  | float (q : ℚ)
  | str (s : String)
  | list (xs : List PyVal)
  | dict (xs : List (String × PyVal))

/-- Whitespace characters stripped by Python `str.strip()` (the ASCII ones;
no string handled by the module contains non-ASCII whitespace). -/
def isPySpace (c : Char) : Bool :=
  c == ' ' || c == '\t' || c == '\n' || c == '\r' || c == '\x0b' || c == '\x0c'

/-- `str.strip()` on the character list. -/
def pyStripList (l : List Char) : List Char :=
  ((l.dropWhile isPySpace).reverse.dropWhile isPySpace).reverse

/-- Python `str.strip()`. -/
def pyStrip (s : String) : String := String.mk (pyStripList s.data)

/-- Python `str.lower()` (ASCII case mapping; the keyword tables compared
against are ASCII). -/
def pyLower (s : String) : String := String.mk (s.data.map Char.toLower)

/-- Python `str.upper()`. -/
def pyUpper (s : String) : String := String.mk (s.data.map Char.toUpper)

/-- Python `str(x)`.  Exact for `None`, booleans, ints and strings — the only
values whose rendered text the module ever inspects.  Floats never reach a
`str()` call on a branch-relevant path (they are caught by the numeric
branch of `_is_selected` first), and container reprs are only tested for
non-emptiness and membership in fixed keyword lists, which the placeholders
decide identically to the real reprs `[...]`/`{...}`. -/
def pyStr : PyVal → String
  | .none => "None"
  | .bool true => "True"
  | .bool false => "False"
  | .int n => toString n
  | .float q => toString q
  | .str s => s
  | .list _ => "<list>"
  | .dict _ => "<dict>"

/-- Digit run to a natural number. -/
def digitsToNat (l : List Char) : Nat :=
  l.foldl (fun a c => a * 10 + (c.toNat - 48)) 0

/-- Python `int(s)` on a string: surrounding whitespace allowed, optional
sign, then decimal digits; anything else raises `ValueError`.  (Python also
accepts `_` digit grouping; no input considered here uses it.) -/
def pyIntOfString (s : String) : Except String Int :=
  match (pyStrip s).data with
  | [] => .error "invalid literal for int()"
  | '-' :: rest =>
      if rest ≠ [] ∧ rest.all Char.isDigit then .ok (-(digitsToNat rest : Int))
      else .error "invalid literal for int()"
  | '+' :: rest =>
      if rest ≠ [] ∧ rest.all Char.isDigit then .ok (digitsToNat rest : Int)
      else .error "invalid literal for int()"
  | l =>
      if l.all Char.isDigit then .ok (digitsToNat l : Int)
      else .error "invalid literal for int()"

/-- Python `int(x)`: the one genuinely fallible primitive on the module's
executed paths (the collector wraps it in `try/except`).  Floats truncate
toward zero. -/
def pyIntCoe : PyVal → Except String Int
  | .none => .error "int() argument must not be None"
  | .bool b => .ok (if b then 1 else 0)
  | .int n => .ok n
  | .float q =>
      .ok (if 0 ≤ q.num then q.num / (q.den : Int) else -((-q.num) / (q.den : Int)))
  | .str s => pyIntOfString s
  | .list _ => .error "int() argument must not be a list"
  | .dict _ => .error "int() argument must not be a dict"

/-- Python `d.get(k)` on a (string-keyed) dict, `None` when absent. -/
def dGet (xs : List (String × PyVal)) (k : String) : PyVal :=
  match xs.find? (fun p => p.1 == k) with
  | some p => p.2
  | Option.none => .none

/-- Python `k in d` on a (string-keyed) dict. -/
def dHasKey (xs : List (String × PyVal)) (k : String) : Bool :=
  xs.any (fun p => p.1 == k)

/-- `_safe_strip` (answer_Layers.py lines 184–187, identical to lines
38–39): `"" if x is None else str(x).strip()`. -/
def safe_strip (x : PyVal) : String :=
  match x with
  | .none => ""
  | v => pyStrip (pyStr v)

/-- `_is_selected` (answer_Layers.py lines 190–211): robust interpretation
of condition flags — `None` false, boolean passthrough, numbers by nonzero
test, then keyword lists on the stripped lowercased string with a
permissive "non-empty string means selected" fallback. -/
def is_selected : PyVal → Bool
  | .none => false
  | .bool b => b
  | .int n => decide (n ≠ 0)
  | .float q => decide (q ≠ 0)
  | v =>
    let s := pyLower (pyStrip (pyStr v))
    if s ∈ (["", "none", "null", "na", "n/a", "unknown"] : List String) then false
    else if s ∈ (["no", "n", "false", "0", "absent", "negative", "not present"] : List String) then
      false
    else if s ∈ (["yes", "y", "true", "1", "selected", "present", "positive"] : List String) then
      true
    else true

/-- Condition catalog entry: `{"title": ..., "lines": [...]}`. -/
structure CondEntry where
  title : String
  lines : List String

/- The catalog line texts (answer_Layers.py lines 261–318), verbatim. -/

def CAD_line1 : String := "If exertion brings chest pressure, unusual shortness of breath, or dizziness, stop and follow your symptom action plan."

def CAD_line2 : String := "Ask your clinician what your LDL-C target is and how your current plan supports it (meds + lifestyle)."

def AF_line1 : String := "Know your stroke warning signs (FAST) and your anticoagulation plan if prescribed."

def AF_line2 : String := "If you notice sustained palpitations with fainting, chest pain, or severe breathlessness, seek urgent care."

def HF_line1 : String := "Track daily weight and swelling if advised; rapid weight gain can signal fluid retention."

def HF_line2 : String := "If shortness of breath suddenly worsens, or you can’t lie flat, contact your care team promptly."

def HTN_line1 : String := "Home BP technique matters: seated, rested 5 minutes, arm at heart level; take 2 readings and average."

def HTN_line2 : String := "If readings are very high with symptoms (chest pain, severe headache, weakness, trouble speaking), seek urgent care."

def DM_line1 : String := "If you use insulin or meds that can cause lows, carry fast-acting carbs and know the 15–15 rule."

def DM_line2 : String := "Ask what your A1c target is and how often to recheck based on your regimen and risk."

def CKMH_line1 : String := "These systems are connected—BP, glucose, kidney function, and lipids work together in risk reduction."

def CKMH_line2 : String := "Ask how your eGFR and UACR affect your medication choices and monitoring frequency."

def ST_line1 : String := "If you have new one-sided weakness, facial droop, or speech trouble, treat it as an emergency (call 911)."

def ST_line2 : String := "Secondary prevention often focuses on BP, cholesterol, diabetes, and rhythm (AFib) control—ask which apply to you."

def CH_line1 : String := "If you have muscle aches or concerns about statins, don’t stop abruptly—ask about dose adjustments or alternatives."

def CH_line2 : String := "Recheck your lipid panel on the schedule your clinician recommends to confirm you’re at goal."

/-- `CONDITION_ADDONS` (answer_Layers.py lines 261–318), in declaration
order. -/
def CONDITION_ADDONS : List (String × CondEntry) :=
  [ ("CAD", ⟨"CAD considerations", [CAD_line1, CAD_line2]⟩)
  , ("AF", ⟨"AFib considerations", [AF_line1, AF_line2]⟩)
  , ("HF", ⟨"Heart failure considerations", [HF_line1, HF_line2]⟩)
  , ("HTN", ⟨"Blood pressure considerations", [HTN_line1, HTN_line2]⟩)
  , ("DM", ⟨"Diabetes considerations", [DM_line1, DM_line2]⟩)
  , ("CKMH", ⟨"Heart–kidney–metabolic considerations", [CKMH_line1, CKMH_line2]⟩)
  , ("ST", ⟨"Stroke/TIA considerations", [ST_line1, ST_line2]⟩)
  , ("CH", ⟨"Cholesterol treatment considerations", [CH_line1, CH_line2]⟩) ]

def trust_m1_line1 : String := "If you’re unsure who to trust, we can stick to one or two well-known sources and confirm the plan with your clinician."

def trust_m1_line2 : String := "It’s okay to ask: “What’s the benefit, what’s the downside, and what are my options?”"

def trust_p1_line1 : String := "Since you’re engaged with your care, consider bringing your tracked data (BP, steps, symptoms) to tighten the plan together."

def hl_p1_line1 : String := "If you like details, ask for your exact targets (BP, LDL, A1c) and how your numbers are trending over time."

/-- `ENGAGEMENT_ADDONS` (answer_Layers.py lines 321–404), in declaration
order; per driver the variant lists keyed by -1 and +1. -/
def ENGAGEMENT_ADDONS : List (String × List (Int × List String)) :=
  [ ("trust",
      [ (-1, [trust_m1_line1, trust_m1_line2])
      , (1, [trust_p1_line1]) ])
  , ("health_literacy",
      [ (-1, [ "Here’s the short version: pick 1 change this week, track it for 7 days, and bring the results to your next visit."
             , "If any terms feel unclear, ask for plain-language explanations—good care should be understandable." ])
      , (1, [hl_p1_line1]) ])
  , ("readiness_for_change",
      [ (-1, ["No pressure to change everything today—choose the smallest step that feels realistic and start there."])
      , (1, ["Since you feel ready, choose one “next-step” goal and set a check-in date to review progress."]) ])
  , ("selfefficacy",
      [ (-1, ["Let’s make this easier: define a 5-minute starter step you can succeed with, then build from wins."])
      , (1, ["You seem confident—use that strength to build a simple routine and track streaks."]) ])
  , ("proactiveness",
      [ (-1, ["If this feels like a lot, start by writing 2 questions for your next visit—momentum often starts with clarity."])
      , (1, ["You’re being proactive—consider a weekly ‘health planning’ time to review meds, activity, and symptoms."]) ])
  , ("goal_orientation",
      [ (-1, ["Try one SMART goal: specific, measurable, achievable, relevant, time-bound (example: walk 10 minutes after dinner 5 days this week)."])
      , (1, ["Pick a measurable target for the next 7 days and track it daily (minutes, steps, BP, or sleep)."]) ])
  , ("independence",
      [ (-1, ["If you rely on others, choose one support person and give them a clear role (reminders, walks, meal planning)."])
      , (1, ["Since you prefer autonomy, use a simple self-tracking tool and bring the summary to visits."]) ])
  , ("decision_style",
      [ (-1, ["If decisions feel stressful, ask your clinician for 2–3 options and a recommendation, then take 24 hours to decide if needed."])
      , (1, ["Since you like exploring options, ask: “What are the alternatives and what evidence supports each?”"]) ])
  , ("food_insecurity",
      [ (-1, ["If cost or access is a barrier, ask about budget-friendly heart-healthy staples (beans, frozen vegetables, oats) and local support resources."])
      , (1, ["If access is good, plan one grocery swap this week that supports your goal (lower sodium, higher fiber)."]) ])
  , ("access_to_healthcare",
      [ (-1, ["If appointments are hard to access, ask about telehealth follow-ups, remote monitoring, or community-based resources."])
      , (1, ["Since you can access care, consider scheduling a follow-up date now to review progress and adjust the plan."]) ]) ]

/-- `REQUIRE_QUESTION_RELEVANCE_FOR_CONDITION_ADDONS` (line 409): shipped as
`False`, so any active condition contributes regardless of question tags. -/
def REQUIRE_QUESTION_RELEVANCE_FOR_CONDITION_ADDONS : Bool := false

/-- `_get_calc_block` (lines 214–216) as used on the collector's executed
path, where `calc_context` has already been coerced to a dict: fetch the
value at `key` and keep it only when it is itself a dict. -/
def get_calc_block (calcd : List (String × PyVal)) (key : String) : List (String × PyVal) :=
  match dGet calcd key with
  | .dict ys => ys
  | _ => []

/-- `_get_question_signatures` (lines 219–221) on a dict question. -/
def get_question_signatures (question : List (String × PyVal)) : List (String × PyVal) :=
  match dGet question "signatures" with
  | .dict ys => ys
  | _ => []

/-- `_get_question_condition_tags` (lines 224–229): the list comprehension
`[str(x).strip().upper() for x in mods if str(x).strip()]` over a list-typed
`signatures.condition_modifiers`. -/
def get_question_condition_tags (question : List (String × PyVal)) : List String :=
  match dGet (get_question_signatures question) "condition_modifiers" with
  | .list mods =>
      mods.filterMap (fun x =>
        let t := pyStrip (pyStr x)
        if t = "" then Option.none else some (pyUpper t))
  | _ => []

/-- Insert into a sorted list of strings (for Python `sorted`). -/
def insertSorted (x : String) : List String → List String
  | [] => [x]
  | y :: ys => if y < x then y :: insertSorted x ys else x :: y :: ys

/-- Python `sorted` on strings (insertion sort; lexicographic order). -/
def sortStrings (l : List String) : List String := l.foldr insertSorted []

/-- The body of every `line_s = _safe_strip(line); if line_s:` filter the
collector applies to catalog lines. -/
def stripSome (line : String) : Option String :=
  let ls := pyStrip line
  if ls = "" then Option.none else some ls

/-- `active_conditions` loop (lines 439–445): uppercase-strip each key of
`calc["condition_modifiers"]` in mapping iteration order, keep the non-empty
ones whose flag is selected. -/
def activeConditionsOf (calc_conditions : List (String × PyVal)) : List String :=
  calc_conditions.filterMap (fun p =>
    let code_u := pyUpper (pyStrip p.1)
    if code_u = "" then Option.none
    else if is_selected p.2 then some code_u else Option.none)

/-- The `continue` guards of the condition loop (lines 448–454): the
condition must be a catalog key, and when the (shipped-off) relevance flag
is on, a tagged question must tag it. -/
def condFilter (q_condition_tags : List String) (cond : String) : Bool :=
  (CONDITION_ADDONS.any (fun e => e.1 == cond)) &&
    !(REQUIRE_QUESTION_RELEVANCE_FOR_CONDITION_ADDONS &&
      (!q_condition_tags.isEmpty && !q_condition_tags.contains cond))

/-- `CONDITION_ADDONS.get(cond, {}).get("lines", [])` with the per-line
strip-and-drop-empty filter (lines 456–462). -/
def condAddonLines (cond : String) : List String :=
  match CONDITION_ADDONS.find? (fun e => e.1 == cond) with
  | some e => e.2.lines.filterMap stripSome
  | Option.none => []

/-- The add-on lines contributed by the condition loop, in loop order. -/
def condAddonsOf (q_condition_tags : List String) (active : List String) : List String :=
  active.flatMap (fun cond =>
    if condFilter q_condition_tags cond then condAddonLines cond else [])

/-- The `"<CODE> active"` reasons contributed by the condition loop. -/
def condWhyOf (q_condition_tags : List String) (active : List String) : List String :=
  active.filterMap (fun cond =>
    if condFilter q_condition_tags cond then some (cond ++ " active") else Option.none)

/-- The driver loop's selection (lines 466–476): walk `ENGAGEMENT_ADDONS` in
catalog order; keep a driver when its key occurs in the context, `int()`
coercion succeeds (the `try/except` catch), and the value is -1 or +1; pair
it with its variant lines `variants.get(val, [])`. -/
def drvSelOf (calc_drivers : List (String × PyVal)) : List (String × Int × List String) :=
  ENGAGEMENT_ADDONS.filterMap (fun e =>
    if !(dHasKey calc_drivers e.1) then Option.none
    else
      match pyIntCoe (dGet calc_drivers e.1) with
      | .error _ => Option.none
      | .ok val =>
          if (val ≠ -1 ∧ val ≠ 0 ∧ val ≠ 1) ∨ val = 0 then Option.none
          else
            some (e.1, val,
              (match e.2.find? (fun p => p.1 == val) with
               | some p => p.2
               | Option.none => [])))

/-- The safe debug block returned by the collector (lines 484–488). -/
structure CollectDebug where
  error : Option String
  active_conditions : List String
  question_condition_tags : List String
  matched_drivers : List (String × Int)
deriving DecidableEq

/-- Assembly of the collector's three results from the question tags, the
active conditions and the driver selection.  The Python loops append to
`addons` and `why` independently, so each output list is the concatenation
of the per-loop contributions (condition loop first, driver loop second,
exactly as in lines 435–489). -/
def assembleCollect (q_condition_tags active_conditions : List String)
    (dsel : List (String × Int × List String)) :
    List String × List String × CollectDebug :=
  (condAddonsOf q_condition_tags active_conditions ++
     dsel.flatMap (fun t => t.2.2.filterMap stripSome),
   condWhyOf q_condition_tags active_conditions ++
     dsel.map (fun t => t.1 ++ " " ++ toString t.2.1),
   { error := Option.none
     active_conditions := active_conditions
     question_condition_tags := sortStrings q_condition_tags
     matched_drivers := dsel.map (fun t => (t.1, t.2.1)) })

/-- `_collect_addons_and_reasons` (lines 415–489): a non-dict question
short-circuits to empty lists with an error debug; a non-dict context is
coerced to the empty dict; then condition lines (context order) followed by
driver lines (catalog order) are accumulated, each with its reason. -/
def collect_addons_and_reasons (question : PyVal) (calc_context : PyVal) :
    List String × List String × CollectDebug :=
  match question with
  | .dict qxs =>
    let calcd : List (String × PyVal) :=
      match calc_context with
      | .dict cxs => cxs
      | _ => []
    assembleCollect ((get_question_condition_tags qxs).dedup)
      (activeConditionsOf (get_calc_block calcd "condition_modifiers"))
      (drvSelOf (get_calc_block calcd "engagement_drivers"))
  | _ =>
    ([], [],
      { error := some "question not dict", active_conditions := []
        question_condition_tags := [], matched_drivers := [] })

/-- Python `sep.join` (for `"\n".join` in `_bullets`). -/
def joinSep (sep : String) : List String → String
  | [] => ""
  | [x] => x
  | x :: y :: ys => x ++ sep ++ joinSep sep (y :: ys)

/-- `_bullets` (lines 253–255): render each non-blank stripped item as a
`"- "` bullet and join with newlines. -/
def bullets (items : List String) : String :=
  joinSep "\n" (items.filterMap (fun x =>
    let t := pyStrip x
    if t = "" then Option.none else some ("- " ++ t)))

/-- `build_answer_addons` (lines 495–511).  The module defines
`build_answer_addons` twice; Python binds the later definition, so this —
not the dict-returning draft at lines 66–135 — is the function callers get.
It never reads `style`. -/
def build_answer_addons (question : PyVal) (calc_context : PyVal) (style : PyVal) : String :=
  let r := collect_addons_and_reasons question calc_context
  if r.1 = [] then "" else pyStrip (bullets r.1)

/-- The payload shape returned by `build_layered_answer_structured`. -/
structure Payload where
  base : String
  addons : List String
  why_added : List String
  final : String
deriving DecidableEq

/-- `build_layered_answer_structured` (lines 542–569): strip the base,
collect add-ons, and join base and bullets with a blank line (stripping the
concatenation); `style` is never read. -/
def build_layered_answer_structured (question : PyVal) (base : PyVal)
    (calc_context : PyVal) (style : PyVal) : Payload :=
  let base_s := safe_strip base
  let r := collect_addons_and_reasons question calc_context
  let addon_text := if r.1 ≠ [] then pyStrip (bullets r.1) else ""
  let final := if addon_text ≠ "" then pyStrip (base_s ++ "\n\n" ++ addon_text) else base_s
  { base := base_s, addons := r.1, why_added := r.2.1, final := final }

/-- Convenience constructor for contexts shaped like the calculator output:
`condition_modifiers`, `engagement_drivers` and a `prevent` risk block. -/
def mkCtx (conds drivers : List (String × PyVal)) (risk : PyVal) : PyVal :=
  .dict [ ("condition_modifiers", .dict conds)
        , ("engagement_drivers", .dict drivers)
        , ("prevent", risk) ]

/-- The empty question record, used as a neutral question input. -/
def q0 : PyVal := .dict []

/-- Case-insensitive, whitespace-trimmed comparison key for add-on lines
(the spec's duplicate-comparison rule). -/
def normKey (s : String) : String := pyLower (pyStrip s)

/-- Substring test on strings (for the spec's forbidden-substring rules). -/
def containsSub (hay pat : String) : Bool :=
  hay.data.tails.any (fun t => pat.data.isPrefixOf t)

/- Concrete contexts used by the claim theorems. -/

/-- Context with HF, CKMH and HTN all flagged `"Yes"`. -/
def ctxTriple : PyVal :=
  mkCtx [("HF", .str "Yes"), ("CKMH", .str "Yes"), ("HTN", .str "Yes")] [] (.dict [])

/-- Context of the C3 scenario: AF and ST active, trust −1, 10-year CVD risk
0.05. -/
def ctxScenario : PyVal :=
  mkCtx [("AF", .str "Yes"), ("ST", .str "Yes")] [("trust", .int (-1))]
    (.dict [("cvd_10yr", .float ((5 : ℚ) / 100))])

/-- Context whose condition mapping holds the same condition under two
differently-cased keys (`"af"` and `"AF"` are distinct mapping keys). -/
def ctxDupKeys : PyVal := mkCtx [("af", .str "Yes"), ("AF", .str "Yes")] [] (.dict [])

/-- Context with only CAD active and a 10-year CVD risk of 0.0751. -/
def ctxRisk : PyVal :=
  mkCtx [("CAD", .str "Yes")] [] (.dict [("cvd_10yr", .float ((751 : ℚ) / 10000))])

/-- Context with only CAD active and no risk data. -/
def ctxCAD : PyVal := mkCtx [("CAD", .str "Yes")] [] (.dict [])

/-- CAD and HF flagged, CAD listed first. -/
def ctxCADfirst : PyVal := mkCtx [("CAD", .str "Yes"), ("HF", .str "Yes")] [] (.dict [])

/-- The same entries as `ctxCADfirst`, listed in the opposite mapping
order. -/
def ctxHFfirst : PyVal := mkCtx [("HF", .str "Yes"), ("CAD", .str "Yes")] [] (.dict [])

/- Structural lemmas about `pyStrip` and the collector, used by the claim
proofs below. -/

/-- Flag normalization exactly as claim C7 words it: the listed false-y
strings, boolean passthrough, numeric nonzero test, the listed true
strings, and "every other non-empty string is true".  (As in the code, the
string is stripped and lowercased before the keyword comparison.) -/
def normalize_flag_claimed : PyVal → Bool
  | .none => false
  | .bool b => b
  | .int n => decide (n ≠ 0)
  | .float q => decide (q ≠ 0)
  | v =>
    let s := pyLower (pyStrip (pyStr v))
    if s ∈ (["", "no", "false", "0", "absent", "negative", "unknown", "n/a"] : List String) then
      false
    else if s ∈ (["yes", "true", "1", "selected", "present", "positive"] : List String) then
      true
    else true

/-- Flag normalization as claim C7 must be amended: the false-y list also
contains "n", "none", "null", "na" and "not present", which the claim
omitted from its enumeration. -/
def normalize_flag_amended : PyVal → Bool
  | .none => false
  | .bool b => b
  | .int n => decide (n ≠ 0)
  | .float q => decide (q ≠ 0)
  | v =>
    let s := pyLower (pyStrip (pyStr v))
    if s ∈ (["", "none", "null", "na", "n/a", "unknown", "no", "n", "false", "0", "absent",
             "negative", "not present"] : List String) then
      false
    else if s ∈ (["yes", "y", "true", "1", "selected", "present", "positive"] : List String) then
      true
    else true

/-- The spec's rendering of resolved candidates: each candidate as the
bullet `"- " + text`, joined with newlines (claim C8's words). -/
def bulletsJoin (items : List String) : String :=
  joinSep "\n" (items.map (fun x => "- " ++ x))

/-- Dict recognizer (for the degradation clauses of claim C9). -/
def isDict : PyVal → Bool
  | .dict _ => true
  | _ => false

/-- A character list is "head clean" when it does not start with stripped
whitespace. -/
def headClean (l : List Char) : Bool :=
  match l with
  | [] => true
  | c :: _ => !isPySpace c

theorem dropWhile_headClean (l : List Char) :
    headClean (l.dropWhile isPySpace) = true := by
  induction l with
  | nil => rfl
  | cons c t ih =>
      by_cases h : isPySpace c
      · simpa [List.dropWhile_cons, h] using ih
      · simp [List.dropWhile_cons, h, headClean]

theorem dropWhile_of_headClean {l : List Char} (h : headClean l = true) :
    l.dropWhile isPySpace = l := by
  cases l with
  | nil => rfl
  | cons c t =>
      simp only [headClean, Bool.not_eq_true'] at h
      simp [List.dropWhile_cons, h]

theorem headClean_reverse (l : List Char) :
    headClean l.reverse =
      (match l.getLast? with
       | Option.none => true
       | some c => !isPySpace c) := by
  induction l using List.reverseRecOn with
  | nil => rfl
  | append_singleton ys c _ih => simp [headClean]

theorem getLast?_dropWhile {l : List Char} (h : l.dropWhile isPySpace ≠ []) :
    (l.dropWhile isPySpace).getLast? = l.getLast? := by
  induction l with
  | nil => simp at h
  | cons c t ih =>
      by_cases hc : isPySpace c
      · rw [List.dropWhile_cons] at h ⊢
        simp only [hc, if_true] at h ⊢
        have ht : t ≠ [] := by
          intro e
          rw [e] at h
          simp at h
        rw [ih h]
        cases t with
        | nil => exact absurd rfl ht
        | cons x xs => simp
      · rw [List.dropWhile_cons] at h ⊢
        simp [hc]

theorem pyStripList_trailClean (l : List Char) :
    headClean (pyStripList l).reverse = true := by
  unfold pyStripList
  rw [List.reverse_reverse]
  exact dropWhile_headClean _

theorem pyStripList_headClean (l : List Char) : headClean (pyStripList l) = true := by
  unfold pyStripList
  by_cases hX : (l.dropWhile isPySpace).reverse.dropWhile isPySpace = []
  · rw [hX]; rfl
  · rw [headClean_reverse, getLast?_dropWhile hX, List.getLast?_reverse]
    have hm := dropWhile_headClean l
    cases hm2 : l.dropWhile isPySpace with
    | nil => rfl
    | cons c t =>
        rw [hm2] at hm
        simpa [headClean] using hm

theorem pyStripList_of_clean {l : List Char} (h1 : headClean l = true)
    (h2 : headClean l.reverse = true) : pyStripList l = l := by
  unfold pyStripList
  rw [dropWhile_of_headClean h1, dropWhile_of_headClean h2, List.reverse_reverse]

theorem pyStripList_idem (l : List Char) :
    pyStripList (pyStripList l) = pyStripList l :=
  pyStripList_of_clean (pyStripList_headClean l) (pyStripList_trailClean l)

theorem pyStrip_idem (s : String) : pyStrip (pyStrip s) = pyStrip s := by
  show String.mk (pyStripList (pyStripList s.data)) = String.mk (pyStripList s.data)
  rw [pyStripList_idem]

theorem stripSome_eq_some {line l : String} (h : stripSome line = some l) :
    l = pyStrip line ∧ l ≠ "" := by
  unfold stripSome at h
  by_cases he : pyStrip line = ""
  · simp [he] at h
  · simp only [he, if_false, Option.some.injEq] at h
    exact ⟨h.symm, h ▸ he⟩

theorem mem_filterMap_stripSome {L : List String} {l : String}
    (h : l ∈ L.filterMap stripSome) : pyStrip l = l ∧ l ≠ "" := by
  rcases List.mem_filterMap.mp h with ⟨line, _, hs⟩
  rcases stripSome_eq_some hs with ⟨h1, h2⟩
  subst h1
  exact ⟨pyStrip_idem line, h2⟩

theorem mem_condAddonLines {cond l : String} (h : l ∈ condAddonLines cond) :
    pyStrip l = l ∧ l ≠ "" := by
  unfold condAddonLines at h
  split at h
  · exact mem_filterMap_stripSome h
  · simp at h

theorem mem_collect_addons_clean {q c : PyVal} {l : String}
    (h : l ∈ (collect_addons_and_reasons q c).1) : pyStrip l = l ∧ l ≠ "" := by
  cases q with
  | dict qxs =>
      simp only [collect_addons_and_reasons, assembleCollect] at h
      rcases List.mem_append.mp h with h1 | h2
      · unfold condAddonsOf at h1
        rcases List.mem_flatMap.mp h1 with ⟨cond, _, hc⟩
        split at hc
        · exact mem_condAddonLines hc
        · simp at hc
      · rcases List.mem_flatMap.mp h2 with ⟨t, _, ht⟩
        exact mem_filterMap_stripSome ht
  | none => exact absurd h (List.not_mem_nil l)
  | bool b => exact absurd h (List.not_mem_nil l)
  | int n => exact absurd h (List.not_mem_nil l)
  | float q' => exact absurd h (List.not_mem_nil l)
  | str s => exact absurd h (List.not_mem_nil l)
  | list xs => exact absurd h (List.not_mem_nil l)

theorem mem_drvSelOf {cd : List (String × PyVal)} {t : String × Int × List String}
    (ht : t ∈ drvSelOf cd) :
    dHasKey cd t.1 = true ∧ pyIntCoe (dGet cd t.1) = .ok t.2.1 ∧
      (t.2.1 = -1 ∨ t.2.1 = 1) := by
  unfold drvSelOf at ht
  rcases List.mem_filterMap.mp ht with ⟨e, _he, hf⟩
  by_cases hk : dHasKey cd e.1 = true
  · simp only [hk, Bool.not_true, Bool.false_eq_true, if_false] at hf
    split at hf
    · simp at hf
    · rename_i val hv
      split at hf
      · simp at hf
      · rename_i hcond
        have hts : t = (e.1, val,
            match List.find? (fun p => p.1 == val) e.2 with
            | some p => p.2
            | Option.none => []) := (Option.some.inj hf).symm
        subst hts
        refine ⟨hk, hv, ?_⟩
        simp only [not_or, not_and_or, not_not] at hcond
        rcases hcond with ⟨h1, h2⟩
        rcases h1 with h | h | h
        · exact Or.inl h
        · exact absurd h h2
        · exact Or.inr h
  · simp [hk] at hf

/-- When the context's driver mapping holds a single key whose value does
not coerce to -1 or +1, the driver selection is empty. -/
theorem drvSelOf_single_skip {k : String} {v : PyVal}
    (h : ∀ n : Int, pyIntCoe v = .ok n → n ≠ -1 ∧ n ≠ 1) :
    drvSelOf [(k, v)] = [] := by
  rw [List.eq_nil_iff_forall_not_mem]
  intro t ht
  rcases mem_drvSelOf ht with ⟨hk, hv, hval⟩
  have hkk : k = t.1 := by simpa [dHasKey] using hk
  have hgv : dGet [(k, v)] t.1 = v := by simp [dGet, hkk]
  rw [hgv] at hv
  rcases h t.2.1 hv with ⟨hm, hp⟩
  rcases hval with h' | h'
  · exact hm h'
  · exact hp h'



/-- C1.  The claim asserts a triple-overlap conflict rule: with active
conditions ⊇ {HF, CKMH, HTN}, no resolved line other than three combined
replacement lines inserted at the front may contain a forbidden substring
such as "bp" or "fluid".  Counterexample: with exactly those three
conditions active, the resolved list still contains, beyond any three-line
front prefix, a line whose lowercased text contains "bp" (and the list also
carries a "fluid" line); no removal or insertion happens at all. -/
theorem C1_counterexample :
    activeConditionsOf [("HF", .str "Yes"), ("CKMH", .str "Yes"), ("HTN", .str "Yes")] =
        ["HF", "CKMH", "HTN"] ∧
      ((collect_addons_and_reasons q0 ctxTriple).1.drop 3).any
        (fun l => containsSub (pyLower l) "bp") = true ∧
      (collect_addons_and_reasons q0 ctxTriple).1.any
        (fun l => containsSub (pyLower l) "fluid") = true := by
  decide

/-- C1 (amended).  No triple-overlap rule exists in the code: with HF, CKMH
and HTN all active the add-on list is exactly the concatenation of the
three conditions' catalog lines (whatever the question record is), lines
containing "bp" and "fluid" included, and the reasons are just the three
"active" entries — no conflict-rule provenance. -/
theorem C1_triple_overlap_amended (qxs : List (String × PyVal)) :
    (collect_addons_and_reasons (.dict qxs) ctxTriple).1 =
        [HF_line1, HF_line2, CKMH_line1, CKMH_line2, HTN_line1, HTN_line2] ∧
      (collect_addons_and_reasons (.dict qxs) ctxTriple).2.1 =
        ["HF active", "CKMH active", "HTN active"] ∧
      (collect_addons_and_reasons (.dict qxs) ctxTriple).1.any
        (fun l => containsSub (pyLower l) "bp" || containsSub (pyLower l) "fluid") = true :=
  ⟨rfl, rfl, rfl⟩

/-- C2.  The claim asserts a risk-tier rule appending one
intensified-prevention line when `risk[cvd_10yr] > 0.075`.  Counterexample:
with `cvd_10yr = 0.0751` and CAD active, the output contains exactly CAD's
two catalog lines and the single reason "CAD active" — nothing is
appended. -/
theorem C2_counterexample :
    (build_layered_answer_structured q0 (.str "Base") ctxRisk (.str "listener")).addons =
        [CAD_line1, CAD_line2] ∧
      (build_layered_answer_structured q0 (.str "Base") ctxRisk (.str "listener")).why_added =
        ["CAD active"] := by
  decide

/-- C2 (amended).  No risk-tier rule exists: the builder never reads the
risk block, so its output is invariant under arbitrary changes to the risk
value — in particular `0.075` and `0.0751` produce identical output and no
line is ever appended for crossing the threshold. -/
theorem C2_risk_tier_amended (question base style r1 r2 : PyVal)
    (conds drivers : List (String × PyVal)) :
    build_layered_answer_structured question base (mkCtx conds drivers r1) style =
      build_layered_answer_structured question base (mkCtx conds drivers r2) style := by
  cases question <;> rfl

/-- C3.  The claim expects, for the AF+ST+trust(-1) scenario, an AF+ST
conflict-rule provenance label and suppression of the generic
FAST/anticoagulation lines.  Counterexample: `why_added` is exactly the
three entries "AF active", "ST active", "trust -1" (no conflict label), and
the generic FAST/anticoagulation line is still present. -/
theorem C3_counterexample :
    (collect_addons_and_reasons q0 ctxScenario).2.1 = ["AF active", "ST active", "trust -1"] ∧
      AF_line1 ∈ (collect_addons_and_reasons q0 ctxScenario).1 := by
  decide

/-- C3 (amended).  For the scenario context the output contains the three
expected provenance entries — and nothing else — while the add-on list is
the plain concatenation of AF's, ST's and trust(-1)'s catalog lines, with
the generic FAST/anticoagulation line first and no combined lines. -/
theorem C3_scenario_amended :
    (build_layered_answer_structured q0 (.str "Base") ctxScenario (.str "listener")).addons =
        [AF_line1, AF_line2, ST_line1, ST_line2, trust_m1_line1, trust_m1_line2] ∧
      (build_layered_answer_structured q0 (.str "Base") ctxScenario (.str "listener")).why_added =
        ["AF active", "ST active", "trust -1"] := by
  decide

/-- C4.  The claim asserts that no two output add-on entries are equal
under case-insensitive, whitespace-trimmed comparison.  Counterexample:
with the same condition flagged under the two distinct mapping keys "af"
and "AF", the output repeats AF's lines verbatim. -/
theorem C4_counterexample :
    ¬ List.Pairwise (fun x y => normKey x ≠ normKey y)
        (collect_addons_and_reasons q0 ctxDupKeys).1 := by
  decide

/-- C4 (amended).  The collector performs no deduplication: a condition
active under two differently-cased context keys contributes its catalog
lines (and its reason) twice, duplicates retained in place. -/
theorem C4_duplicates_amended :
    (collect_addons_and_reasons q0 ctxDupKeys).1 = [AF_line1, AF_line2, AF_line1, AF_line2] ∧
      (collect_addons_and_reasons q0 ctxDupKeys).2.1 = ["AF active", "AF active"] := by
  decide

/-- C5.  The claim asserts out-of-range driver values are clamped to the
nearest of {-1,0,1}, so a raw value of 2 should behave like +1 and
contribute trust's +1 line.  Counterexample: with trust = 2 the collector
produces no lines and no reasons at all. -/
theorem C5_counterexample :
    (collect_addons_and_reasons q0 (mkCtx [] [("trust", .int 2)] (.dict []))).1 = [] ∧
      (collect_addons_and_reasons q0 (mkCtx [] [("trust", .int 2)] (.dict []))).2.1 = [] := by
  decide

/-- C5 (amended).  There is no clamping: a driver whose value fails integer
coercion, or coerces to anything other than exactly -1 or +1, is skipped
entirely — no lines, no provenance, no matched-driver entry. -/
theorem C5_driver_normalization_amended (v : PyVal)
    (h : ∀ n : Int, pyIntCoe v = .ok n → n ≠ -1 ∧ n ≠ 1) :
    collect_addons_and_reasons q0 (mkCtx [] [("trust", v)] (.dict [])) =
      ([], [],
        { error := Option.none, active_conditions := [],
          question_condition_tags := [], matched_drivers := [] }) := by
  have hd := drvSelOf_single_skip (k := "trust") (v := v) h
  show assembleCollect [] [] (drvSelOf [("trust", v)]) = _
  rw [hd]
  rfl

/-- Witness for C5 (amended): the raw driver value 2 — which the original
claim said should act like +1 — is skipped. -/
theorem C5_amended_witness :
    collect_addons_and_reasons q0 (mkCtx [] [("trust", .int 2)] (.dict [])) =
      ([], [],
        { error := Option.none, active_conditions := [],
          question_condition_tags := [], matched_drivers := [] }) :=
  C5_driver_normalization_amended (.int 2) (by
    intro n hn
    injection hn with h
    omega)

/-- C6.  The claim asserts the collector's output is independent of the
context mapping's iteration order.  Counterexample: listing the same
CAD/HF entries in the two possible orders yields differently ordered
add-on lists. -/
theorem C6_counterexample :
    (collect_addons_and_reasons q0 ctxCADfirst).1 ≠
      (collect_addons_and_reasons q0 ctxHFfirst).1 := by
  decide

/-- C6 (amended).  Condition-derived lines follow the context mapping's
iteration (insertion) order, not catalog order — reordering the condition
mapping reorders the output — while driver-derived lines do follow catalog
declaration order and are invariant under driver-mapping reordering. -/
theorem C6_ordering_amended :
    (collect_addons_and_reasons q0 ctxCADfirst).1 = [CAD_line1, CAD_line2, HF_line1, HF_line2] ∧
      (collect_addons_and_reasons q0 ctxHFfirst).1 =
        [HF_line1, HF_line2, CAD_line1, CAD_line2] ∧
      collect_addons_and_reasons q0
          (mkCtx [] [("health_literacy", .int 1), ("trust", .int 1)] (.dict [])) =
        collect_addons_and_reasons q0
          (mkCtx [] [("trust", .int 1), ("health_literacy", .int 1)] (.dict [])) ∧
      (collect_addons_and_reasons q0
          (mkCtx [] [("trust", .int 1), ("health_literacy", .int 1)] (.dict []))).1 =
        [trust_p1_line1, hl_p1_line1] := by
  decide

/-- C7.  The claim's enumeration of flag normalization ends with "every
other non-empty string maps to true".  Counterexample: the string "n" is
outside the claim's false list (so the claim maps it to true), but the code
maps it to false. -/
theorem C7_counterexample :
    normalize_flag_claimed (.str "n") = true ∧ is_selected (.str "n") = false := by
  decide

/-- C7 (amended).  Flag normalization agrees with the claim once the
false-y list is extended with the omitted strings "n", "none", "null",
"na" and "not present": the two functions agree on every value. -/
theorem C7_flag_normalization_amended (v : PyVal) :
    is_selected v = normalize_flag_amended v := by
  cases v with
  | str s =>
      simp only [is_selected, normalize_flag_amended, pyStr]
      by_cases h1 : pyLower (pyStrip s) ∈ (["", "none", "null", "na", "n/a", "unknown"] : List String)
      · have : pyLower (pyStrip s) ∈
            (["", "none", "null", "na", "n/a", "unknown", "no", "n", "false", "0", "absent",
              "negative", "not present"] : List String) := by
          simp only [List.mem_cons, List.not_mem_nil, or_false] at h1 ⊢
          tauto
        simp [h1, this]
      · by_cases h2 : pyLower (pyStrip s) ∈
            (["no", "n", "false", "0", "absent", "negative", "not present"] : List String)
        · have : pyLower (pyStrip s) ∈
              (["", "none", "null", "na", "n/a", "unknown", "no", "n", "false", "0", "absent",
                "negative", "not present"] : List String) := by
            simp only [List.mem_cons, List.not_mem_nil, or_false] at h2 ⊢
            tauto
          simp [h1, h2, this]
        · have : pyLower (pyStrip s) ∉
              (["", "none", "null", "na", "n/a", "unknown", "no", "n", "false", "0", "absent",
                "negative", "not present"] : List String) := by
            simp only [List.mem_cons, List.not_mem_nil, or_false] at h1 h2 ⊢
            tauto
          simp [h1, h2, this]
  | none => rfl
  | bool b => rfl
  | int n => rfl
  | float q => rfl
  | list xs => rfl
  | dict xs => rfl



theorem strData_append (a b : String) : (a ++ b).data = a.data ++ b.data := rfl

theorem strExt {a b : String} (h : a.data = b.data) : a = b := by
  cases a
  cases b
  cases h
  rfl

theorem data_ne_nil {s : String} (h : s ≠ "") : s.data ≠ [] := by
  intro h0
  exact h (strExt h0)

theorem headClean_append {a b : List Char} (ha : a ≠ []) :
    headClean (a ++ b) = headClean a := by
  cases a with
  | nil => exact absurd rfl ha
  | cons c t => rfl

theorem trailClean_append {a b : List Char} (hb : b ≠ []) :
    headClean (a ++ b).reverse = headClean b.reverse := by
  rw [List.reverse_append]
  exact headClean_append (by simpa using hb)

theorem pyStrip_of_clean {s : String} (h1 : headClean s.data = true)
    (h2 : headClean s.data.reverse = true) : pyStrip s = s := by
  show String.mk (pyStripList s.data) = s
  rw [pyStripList_of_clean h1 h2]

theorem safe_strip_headClean (x : PyVal) : headClean (safe_strip x).data = true := by
  cases x with
  | none => rfl
  | bool b => exact pyStripList_headClean _
  | int n => exact pyStripList_headClean _
  | float q => exact pyStripList_headClean _
  | str s => exact pyStripList_headClean _
  | list xs => exact pyStripList_headClean _
  | dict xs => exact pyStripList_headClean _

theorem safe_strip_trailClean (x : PyVal) :
    headClean (safe_strip x).data.reverse = true := by
  cases x with
  | none => rfl
  | bool b => exact pyStripList_trailClean _
  | int n => exact pyStripList_trailClean _
  | float q => exact pyStripList_trailClean _
  | str s => exact pyStripList_trailClean _
  | list xs => exact pyStripList_trailClean _
  | dict xs => exact pyStripList_trailClean _

/-- On a list of already-stripped, non-blank lines, `_bullets`' filter is
just the bullet rendering the spec describes. -/
theorem filterMap_bullets_eq {items : List String}
    (h : ∀ l ∈ items, pyStrip l = l ∧ l ≠ "") :
    items.filterMap (fun x =>
        let t := pyStrip x
        if t = "" then Option.none else some ("- " ++ t)) =
      items.map (fun x => "- " ++ x) := by
  induction items with
  | nil => rfl
  | cons x xs ih =>
      rcases h x (List.mem_cons_self x xs) with ⟨h1, h2⟩
      simp only [List.filterMap_cons, List.map_cons, h1, h2, if_false, ite_false]
      rw [ih (fun l hl => h l (List.mem_cons_of_mem x hl))]

theorem bullets_eq_bulletsJoin {items : List String}
    (h : ∀ l ∈ items, pyStrip l = l ∧ l ≠ "") :
    bullets items = bulletsJoin items := by
  unfold bullets bulletsJoin
  rw [filterMap_bullets_eq h]

theorem joinSep_ne_nil {items : List String} (hne : items ≠ [])
    (h : ∀ l ∈ items, l.data ≠ []) : (joinSep "\n" items).data ≠ [] := by
  induction items with
  | nil => exact absurd rfl hne
  | cons x xs ih =>
      cases xs with
      | nil => exact h x (List.mem_cons_self x [])
      | cons y ys =>
          show ((x ++ "\n") ++ joinSep "\n" (y :: ys)).data ≠ []
          rw [strData_append, strData_append]
          simp

theorem joinSep_headClean {x : String} {rest : List String} (hx : x.data ≠ []) :
    headClean (joinSep "\n" (x :: rest)).data = headClean x.data := by
  cases rest with
  | nil => rfl
  | cons y ys =>
      show headClean ((x ++ "\n") ++ joinSep "\n" (y :: ys)).data = headClean x.data
      rw [strData_append, strData_append, List.append_assoc]
      exact headClean_append hx

theorem joinSep_trailClean {items : List String} (hne : items ≠ [])
    (hd : ∀ l ∈ items, l.data ≠ [])
    (ht : ∀ l ∈ items, headClean l.data.reverse = true) :
    headClean (joinSep "\n" items).data.reverse = true := by
  induction items with
  | nil => exact absurd rfl hne
  | cons x xs ih =>
      cases xs with
      | nil => exact ht x (List.mem_cons_self x [])
      | cons y ys =>
          show headClean ((x ++ "\n") ++ joinSep "\n" (y :: ys)).data.reverse = true
          rw [strData_append]
          rw [trailClean_append (joinSep_ne_nil (by simp)
            (fun l hl => hd l (List.mem_cons_of_mem x hl)))]
          exact ih (by simp) (fun l hl => hd l (List.mem_cons_of_mem x hl))
            (fun l hl => ht l (List.mem_cons_of_mem x hl))

theorem bullet_data_ne_nil (l : String) : ("- " ++ l).data ≠ [] := by
  rw [strData_append]
  simp

theorem bullet_headClean (l : String) : headClean ("- " ++ l).data = true := by
  rw [strData_append]
  rfl

theorem bullet_trailClean {l : String} (h1 : pyStrip l = l) (h2 : l ≠ "") :
    headClean ("- " ++ l).data.reverse = true := by
  rw [strData_append, trailClean_append (data_ne_nil h2)]
  have hld : l.data = pyStripList l.data := congrArg String.data h1.symm
  rw [hld]
  exact pyStripList_trailClean _

/-- The rendered bullet block of a non-empty clean candidate list is
non-empty, head-clean and trail-clean. -/
theorem bulletsJoin_clean {items : List String} (hne : items ≠ [])
    (h : ∀ l ∈ items, pyStrip l = l ∧ l ≠ "") :
    (bulletsJoin items).data ≠ [] ∧ headClean (bulletsJoin items).data = true ∧
      headClean (bulletsJoin items).data.reverse = true := by
  have hd : ∀ l ∈ items.map (fun x => "- " ++ x), l.data ≠ [] := by
    intro l hl
    rcases List.mem_map.mp hl with ⟨x, _, rfl⟩
    exact bullet_data_ne_nil x
  have hmapne : items.map (fun x => "- " ++ x) ≠ [] := by
    simpa using hne
  refine ⟨joinSep_ne_nil hmapne hd, ?_, ?_⟩
  · unfold bulletsJoin
    cases items with
    | nil => exact absurd rfl hne
    | cons x xs =>
        rw [List.map_cons, joinSep_headClean (bullet_data_ne_nil x)]
        exact bullet_headClean x
  · unfold bulletsJoin
    refine joinSep_trailClean hmapne hd ?_
    intro l hl
    rcases List.mem_map.mp hl with ⟨x, hx, rfl⟩
    rcases h x hx with ⟨h1, h2⟩
    exact bullet_trailClean h1 h2

theorem pyStrip_append_clean {a b : String} (ha1 : a.data ≠ [])
    (ha2 : headClean a.data = true) (hb1 : b.data ≠ [])
    (hb2 : headClean b.data.reverse = true) (m : String) :
    pyStrip (a ++ m ++ b) = a ++ m ++ b := by
  apply pyStrip_of_clean
  · rw [strData_append, strData_append, List.append_assoc]
    rw [headClean_append ha1]
    exact ha2
  · rw [strData_append, strData_append, List.append_assoc]
    rw [trailClean_append (by simp [hb1])]
    rw [trailClean_append hb1]
    exact hb2

theorem pyStrip_blankline_prefix {b : String} (hbh : headClean b.data = true)
    (hbt : headClean b.data.reverse = true) :
    pyStrip ("" ++ "\n\n" ++ b) = b := by
  apply strExt
  show pyStripList (("" ++ "\n\n" ++ b).data) = b.data
  have hdata : ("" ++ "\n\n" ++ b).data = '\n' :: '\n' :: b.data := by
    rw [strData_append, strData_append]
    rfl
  rw [hdata]
  unfold pyStripList
  rw [List.dropWhile_cons, List.dropWhile_cons]
  simp only [show isPySpace '\n' = true from rfl, if_true]
  rw [dropWhile_of_headClean hbh, dropWhile_of_headClean hbt, List.reverse_reverse]

/-- C10.  The style/persona argument is never read by the effective
builders: any two style values produce identical results from both
`build_answer_addons` and `build_layered_answer_structured`. -/
theorem C10_style_independence (question calc_context base s1 s2 : PyVal) :
    build_answer_addons question calc_context s1 = build_answer_addons question calc_context s2 ∧
      build_layered_answer_structured question base calc_context s1 =
        build_layered_answer_structured question base calc_context s2 :=
  ⟨rfl, rfl⟩

theorem build_layered_final (question base calc_context style : PyVal) :
    (build_layered_answer_structured question base calc_context style).final =
      (if (if (collect_addons_and_reasons question calc_context).1 ≠ []
            then pyStrip (bullets (collect_addons_and_reasons question calc_context).1)
            else "") ≠ ""
       then pyStrip (safe_strip base ++ "\n\n" ++
          (if (collect_addons_and_reasons question calc_context).1 ≠ []
           then pyStrip (bullets (collect_addons_and_reasons question calc_context).1)
           else ""))
       else safe_strip base) := rfl

/-- C8.  The claim says the nonempty-candidates shape of `final` — trimmed
base, blank line, bullets — holds for every base string.  Counterexample:
a whitespace-only base trims to empty, and the builder then strips the
leading blank line away, so `final` is the bare bullet block rather than
the claimed `trim(base) + "\n\n" + bullets`. -/
theorem C8_counterexample :
    (build_layered_answer_structured q0 (.str "   ") ctxCAD (.str "x")).final =
        "- " ++ CAD_line1 ++ "\n- " ++ CAD_line2 ∧
      (build_layered_answer_structured q0 (.str "   ") ctxCAD (.str "x")).final ≠
        safe_strip (.str "   ") ++ "\n\n" ++ ("- " ++ CAD_line1 ++ "\n- " ++ CAD_line2) := by
  decide

/-- C8 (amended).  The assembler's contract with the trimming made
explicit: empty candidates give `final = trim(base)`; with candidates, a
base with non-empty trim gives `trim(base) + "\n\n" + bullets`, while a
base with empty trim gives the bullet block alone (the code strips the
whole concatenation). -/
theorem C8_assembler_amended (question base calc_context style : PyVal) :
    ((build_layered_answer_structured question base calc_context style).addons = [] →
        (build_layered_answer_structured question base calc_context style).final =
          safe_strip base) ∧
      ((build_layered_answer_structured question base calc_context style).addons ≠ [] →
        safe_strip base ≠ "" →
        (build_layered_answer_structured question base calc_context style).final =
          safe_strip base ++ "\n\n" ++
            bulletsJoin (build_layered_answer_structured question base calc_context style).addons) ∧
      ((build_layered_answer_structured question base calc_context style).addons ≠ [] →
        safe_strip base = "" →
        (build_layered_answer_structured question base calc_context style).final =
          bulletsJoin (build_layered_answer_structured question base calc_context style).addons) := by
  have haddons : (build_layered_answer_structured question base calc_context style).addons =
      (collect_addons_and_reasons question calc_context).1 := rfl
  refine ⟨?_, ?_, ?_⟩
  · intro h0
    rw [haddons] at h0
    rw [build_layered_final]
    simp [h0]
  · intro h1 h2
    rw [haddons] at h1 ⊢
    have hclean : ∀ l ∈ (collect_addons_and_reasons question calc_context).1,
        pyStrip l = l ∧ l ≠ "" := fun l hl => mem_collect_addons_clean hl
    have hbul := bullets_eq_bulletsJoin hclean
    rcases bulletsJoin_clean h1 hclean with ⟨hj1, hj2, hj3⟩
    have hstrip : pyStrip (bullets (collect_addons_and_reasons question calc_context).1) =
        bulletsJoin (collect_addons_and_reasons question calc_context).1 := by
      rw [hbul]
      exact pyStrip_of_clean hj2 hj3
    have hjne : bulletsJoin (collect_addons_and_reasons question calc_context).1 ≠ "" :=
      fun he => hj1 (by rw [he])
    rw [build_layered_final, if_pos h1, hstrip, if_pos hjne]
    exact pyStrip_append_clean (data_ne_nil h2) (safe_strip_headClean base) hj1 hj3 "\n\n"
  · intro h1 h2
    rw [haddons] at h1 ⊢
    have hclean : ∀ l ∈ (collect_addons_and_reasons question calc_context).1,
        pyStrip l = l ∧ l ≠ "" := fun l hl => mem_collect_addons_clean hl
    have hbul := bullets_eq_bulletsJoin hclean
    rcases bulletsJoin_clean h1 hclean with ⟨hj1, hj2, hj3⟩
    have hstrip : pyStrip (bullets (collect_addons_and_reasons question calc_context).1) =
        bulletsJoin (collect_addons_and_reasons question calc_context).1 := by
      rw [hbul]
      exact pyStrip_of_clean hj2 hj3
    have hjne : bulletsJoin (collect_addons_and_reasons question calc_context).1 ≠ "" :=
      fun he => hj1 (by rw [he])
    rw [build_layered_final, if_pos h1, hstrip, if_pos hjne, h2]
    exact pyStrip_blankline_prefix hj2 hj3

/-- Witness for C8 (amended): with CAD active and the base "Base", the
final text is the trimmed base, a blank line, and the bullet block. -/
theorem C8_amended_witness :
    (build_layered_answer_structured q0 (.str "Base") ctxCAD (.str "x")).addons ≠ [] ∧
      safe_strip (.str "Base") ≠ "" ∧
      (build_layered_answer_structured q0 (.str "Base") ctxCAD (.str "x")).final =
        safe_strip (.str "Base") ++ "\n\n" ++
          bulletsJoin (build_layered_answer_structured q0 (.str "Base") ctxCAD (.str "x")).addons :=
  ⟨by decide, by decide,
    (C8_assembler_amended q0 (.str "Base") ctxCAD (.str "x")).2.1 (by decide) (by decide)⟩

/-- C9.  The claim includes "malformed condition flags normalize to
inactive".  Counterexample: a list-valued flag (whose Python `str()` is the
non-empty `"[]"`) falls through to the permissive fallback and is treated
as ACTIVE, so CAD's lines are produced rather than none. -/
theorem C9_counterexample :
    (collect_addons_and_reasons q0 (mkCtx [("CAD", .list [])] [] (.dict []))).1 =
      [CAD_line1, CAD_line2] := by
  decide

/-- C9 (amended).  The pipeline is total (the one fallible primitive,
integer coercion, is explicitly caught), and degrades as follows: a
non-dict question or a non-dict context yields the empty add-on payload;
a driver value whose coercion fails contributes exactly nothing (as if the
key were absent); and `None` or false-y strings normalize to inactive —
but other malformed flag values fall through to the permissive
active-by-default fallback (see the counterexample). -/
theorem C9_degradation_amended :
    (∀ question base calc_context style : PyVal, isDict question = false →
        build_layered_answer_structured question base calc_context style =
          { base := safe_strip base, addons := [], why_added := [],
            final := safe_strip base }) ∧
      (∀ (qxs : List (String × PyVal)) (base calc_context style : PyVal),
        isDict calc_context = false →
        build_layered_answer_structured (.dict qxs) base calc_context style =
          { base := safe_strip base, addons := [], why_added := [],
            final := safe_strip base }) ∧
      (∀ (question : PyVal) (conds : List (String × PyVal)) (v risk : PyVal),
        (∀ n : Int, pyIntCoe v ≠ .ok n) →
        collect_addons_and_reasons question (mkCtx conds [("trust", v)] risk) =
          collect_addons_and_reasons question (mkCtx conds [] risk)) ∧
      (is_selected PyVal.none = false ∧ is_selected (.str "") = false ∧
        is_selected (.str " n/a ") = false) := by
  refine ⟨?_, ?_, ?_, by decide, by decide, by decide⟩
  · intro question base calc_context style h
    cases question with
    | dict qxs => simp [isDict] at h
    | none => rfl
    | bool b => rfl
    | int n => rfl
    | float q => rfl
    | str s => rfl
    | list xs => rfl
  · intro qxs base calc_context style h
    cases calc_context with
    | dict cxs => simp [isDict] at h
    | none => rfl
    | bool b => rfl
    | int n => rfl
    | float q => rfl
    | str s => rfl
    | list xs => rfl
  · intro question conds v risk h
    cases question with
    | dict qxs =>
        have hskip : drvSelOf [("trust", v)] = [] :=
          drvSelOf_single_skip (fun n hn => absurd hn (h n))
        show assembleCollect ((get_question_condition_tags qxs).dedup)
            (activeConditionsOf conds) (drvSelOf [("trust", v)]) =
          assembleCollect ((get_question_condition_tags qxs).dedup)
            (activeConditionsOf conds) (drvSelOf [])
        rw [hskip]
        rfl
    | none => rfl
    | bool b => rfl
    | int n => rfl
    | float q => rfl
    | str s => rfl
    | list xs => rfl

/-- Witness for C9 (amended): a non-dict question yields the empty payload,
and a list-valued driver entry (whose coercion raises in Python) behaves
exactly like an absent key. -/
theorem C9_amended_witness :
    build_layered_answer_structured (.int 7) (.str " b ") (.int 3) (.str "x") =
        { base := safe_strip (.str " b "), addons := [], why_added := [],
          final := safe_strip (.str " b ") } ∧
      collect_addons_and_reasons q0
          (mkCtx [("HTN", .str "Yes")] [("trust", .list [])] (.dict [])) =
        collect_addons_and_reasons q0 (mkCtx [("HTN", .str "Yes")] [] (.dict [])) :=
  ⟨C9_degradation_amended.1 (.int 7) (.str " b ") (.int 3) (.str "x") (by decide),
   C9_degradation_amended.2.2.1 q0 [("HTN", .str "Yes")] (.list []) (.dict [])
     (fun n hn => by simp [pyIntCoe] at hn)⟩

end AnswerLayers
